import Mathlib

/-!
# Lilu `kern_efi.cpp`: the EFI runtime-services bridge

A shallow embedding of `Lilu/Sources/kern_efi.cpp`.

* Pointers are modelled by what they point to: a null pointer is `none`, a
  valid pointer is `some` of the pointed-to contents. Raw addresses that are
  only passed through (`name`, `guid`, `attr`, `size`, `data`, lock handles,
  function slots of the firmware table) are naturals, `0` being `NULL`.
* The assembly routine `performEfiCallAsm` is external to the C++ file; it is a
  parameter of every definition that reaches it, and every theorem holds for
  all such routines. Each invocation is recorded in a list of `AsmCall`s.
* `SYSLOG`/`DBGLOG` lines are recorded as a list of `LogLine`s.
-/

namespace Lilu

/-! ## Data model -/

/-- Modelled from the spec: the four call-result codes of `kern_return_t` that
`performEfiCall` can yield (success, invalid-address, invalid-argument,
not-supported). The type comes from the Mach headers, which are not part of the
sources; only the fact that the four codes are distinct is used. -/
inductive kern_return_t where
  | KERN_SUCCESS
  | KERN_INVALID_ADDRESS
  | KERN_INVALID_ARGUMENT
  | KERN_NOT_SUPPORTED
  deriving DecidableEq, Repr

open kern_return_t

/-- Modelled from the spec: `EFI_SUCCESS`, the firmware "success" status, whose
definition lives in `pexpert/i386/efi.h` (not part of the sources). -/
def EFI_SUCCESS : Nat := 0

/-- The register frame `struct pal_efi_registers`: five 64-bit slots. -/
structure pal_efi_registers where
  rcx : Nat
  rdx : Nat
  r8 : Nat
  r9 : Nat
  rax : Nat
  deriving DecidableEq, Repr

/-- Value-initialisation `pal_efi_registers regs {}`: every slot is zero. -/
def pal_efi_registers.zeroed : pal_efi_registers :=
  { rcx := 0, rdx := 0, r8 := 0, r9 := 0, rax := 0 }

/-- Modelled from the spec: the runtime-services table `EFI_RUNTIME_SERVICES_64`
(declared in `pexpert/i386/efi.h`, not part of the sources), reduced to the
three function slots this file reads. Each slot is a 64-bit function address. -/
structure EFI_RUNTIME_SERVICES_64 where
  GetVariable : Nat
  SetVariable : Nat
  ResetSystem : Nat
  deriving DecidableEq, Repr

/-- The two exported firmware globals. `gPEEFIRuntimeServices` is `none` when
the pointer is null and `some table` when it points to a table;
`gPEEFISystemTable` is only ever tested against null, so it is kept as a raw
address. -/
structure Firmware where
  gPEEFIRuntimeServices : Option EFI_RUNTIME_SERVICES_64
  gPEEFISystemTable : Nat
  deriving DecidableEq, Repr

/-- One invocation of `performEfiCallAsm`, with the arguments it received:
the function address, the frame pointed to by `efi_reg`, the bytes pointed to
by `stack_contents`, and the byte count. -/
structure AsmCall where
  func : Nat
  efi_reg : pal_efi_registers
  stack_contents : List Nat
  stack_contents_size : Nat
  deriving DecidableEq, Repr

/-- The external routine `performEfiCallAsm(func, efi_reg, stack_contents,
stack_contents_size)`. It works in place on the frame; the function gives the
frame as the routine leaves it. Nothing is assumed about it. -/
abbrev Trampoline := Nat → pal_efi_registers → List Nat → Nat → pal_efi_registers

/-- A diagnostic line emitted through `SYSLOG` or `DBGLOG`. -/
inductive LogLine where
  | SYSLOG (msg : String)
  | DBGLOG_status (msg : String) (status : Nat)
  | DBGLOG_code (msg : String) (code : kern_return_t)
  deriving DecidableEq, Repr

/-! ## The call dispatcher -/

/-- What a run of `performEfiCall` leaves behind: the returned code, the frame
behind `efi_reg` (`none` when that pointer is null), the cell behind
`efi_status`, and the trampoline invocations made. -/
structure CallResult where
  code : kern_return_t
  efi_reg : Option pal_efi_registers
  efi_status : Nat
  calls : List AsmCall
  deriving DecidableEq, Repr

/-- The dispatcher `performEfiCall(func, efi_reg, stack_contents,
stack_contents_size, efi_status)`.

`efi_reg` and `stack_contents` are the pointed-to frame and bytes, `none` for a
null pointer; `stack_contents_size` is independent of the buffer. `efi_status`
is the current content of the output cell: the function is file-local and each
of its three call sites passes the address of a local variable. -/
def performEfiCall (performEfiCallAsm : Trampoline) (fw : Firmware) (func : Nat)
    (efi_reg : Option pal_efi_registers) (stack_contents : Option (List Nat))
    (stack_contents_size : Nat) (efi_status : Nat) : CallResult :=
  if func = 0 then
    { code := KERN_INVALID_ADDRESS, efi_reg := efi_reg, efi_status := efi_status, calls := [] }
  else
    match efi_reg, stack_contents, decide (stack_contents_size % 16 ≠ 0) with
    | some regs, some stack, false =>
      if fw.gPEEFISystemTable = 0 ∨ fw.gPEEFIRuntimeServices = none then
        { code := KERN_NOT_SUPPORTED, efi_reg := efi_reg, efi_status := efi_status, calls := [] }
      else
        let regs' := performEfiCallAsm func regs stack stack_contents_size
        { code := KERN_SUCCESS, efi_reg := some regs', efi_status := regs'.rax,
          calls := [{ func := func, efi_reg := regs, stack_contents := stack,
                      stack_contents_size := stack_contents_size }] }
    | _, _, _ =>
      { code := KERN_INVALID_ARGUMENT, efi_reg := efi_reg, efi_status := efi_status, calls := [] }

/-! ## The runtime-services façade -/

/-- The eight bytes of a 64-bit value in memory, least significant first
(the file targets x86-64, as the register names of the frame show). -/
def le64 (x : Nat) : List Nat :=
  [x % 256, x / 256 % 256, x / 256 ^ 2 % 256, x / 256 ^ 3 % 256,
   x / 256 ^ 4 % 256, x / 256 ^ 5 % 256, x / 256 ^ 6 % 256, x / 256 ^ 7 % 256]

/-- The bytes of an array `uint64_t stack[n] {...}` with the given elements. -/
def uint64Array (slots : List Nat) : List Nat :=
  (slots.map le64).flatten

/-- The 64-bit value held by the `i`-th 8-byte slot of a stack buffer. -/
def stackSlot (buf : List Nat) (i : Nat) : Nat :=
  ((buf.drop (8 * i)).take 8).foldr (fun b acc => b + 256 * acc) 0

/-- What a façade operation leaves behind: the value returned to the caller,
the trampoline invocations made, and the diagnostic lines emitted. -/
structure Outcome (α : Type) where
  ret : α
  calls : List AsmCall
  log : List LogLine
  deriving DecidableEq, Repr

/-- The operation `EfiRuntimeServices::resetSystem(type)`. The result is `none`
when `gPEEFIRuntimeServices` is null: the first statement reads the
`ResetSystem` slot through that pointer, before any check. The C++ function
returns `void`, so the returned value is `()`. -/
def resetSystem (performEfiCallAsm : Trampoline) (fw : Firmware) (type : Nat) :
    Option (Outcome Unit) :=
  match fw.gPEEFIRuntimeServices with
  | none => none
  | some rt =>
    let function := rt.ResetSystem
    let regs := { pal_efi_registers.zeroed with rcx := type, rdx := EFI_SUCCESS }
    let stack := List.replicate 48 0
    let status := EFI_SUCCESS
    let r := performEfiCall performEfiCallAsm fw function (some regs) (some stack)
      stack.length status
    if r.code = KERN_SUCCESS then
      some { ret := (), calls := r.calls,
             log := [LogLine.DBGLOG_status "successful efi call with response %08llX"
                      r.efi_status] }
    else
      some { ret := (), calls := r.calls,
             log := [LogLine.DBGLOG_code "efi call failure %d" r.code] }

/-- The operation `EfiRuntimeServices::getVariable(name, guid, attr, size, data)`;
the five arguments are addresses. The result is `none` when
`gPEEFIRuntimeServices` is null (the `GetVariable` slot is read through it
before any check). -/
def getVariable (performEfiCallAsm : Trampoline) (fw : Firmware)
    (name guid attr size data : Nat) : Option (Outcome Nat) :=
  match fw.gPEEFIRuntimeServices with
  | none => none
  | some rt =>
    let function := rt.GetVariable
    let regs := { pal_efi_registers.zeroed with
                  rcx := name, rdx := guid, r8 := attr, r9 := size }
    let stack := uint64Array [0, 0, 0, 0, data, 0]
    let status := EFI_SUCCESS
    let r := performEfiCall performEfiCallAsm fw function (some regs) (some stack)
      stack.length status
    if r.code = KERN_SUCCESS then
      some { ret := r.efi_status, calls := r.calls,
             log := [LogLine.DBGLOG_status
                      "successful efi call GetVariable with response %08llX" r.efi_status] }
    else
      some { ret := r.efi_status, calls := r.calls,
             log := [LogLine.DBGLOG_code "efi call GetVariable failure %d" r.code] }

/-- The operation `EfiRuntimeServices::setVariable(name, guid, attr, size, data)`;
`name`, `guid` and `data` are addresses, `attr` is a `uint32_t` and `size` a
`uint64_t`, both passed by value. The result is `none` when
`gPEEFIRuntimeServices` is null. -/
def setVariable (performEfiCallAsm : Trampoline) (fw : Firmware)
    (name guid attr size data : Nat) : Option (Outcome Nat) :=
  match fw.gPEEFIRuntimeServices with
  | none => none
  | some rt =>
    let function := rt.SetVariable
    let regs := { pal_efi_registers.zeroed with
                  rcx := name, rdx := guid, r8 := attr, r9 := size }
    let stack := uint64Array [0, 0, 0, 0, data, 0]
    let status := EFI_SUCCESS
    let r := performEfiCall performEfiCallAsm fw function (some regs) (some stack)
      stack.length status
    if r.code = KERN_SUCCESS then
      some { ret := r.efi_status, calls := r.calls,
             log := [LogLine.DBGLOG_status
                      "successful efi call SetVariable with response %08llX" r.efi_status] }
    else
      some { ret := r.efi_status, calls := r.calls,
             log := [LogLine.DBGLOG_code "efi call SetVariable failure %d" r.code] }

/-! ## Activation and acquisition -/

/-- Modelled from the spec: the values a device-tree property can hold. Only
the distinction between a byte-string (`OSData`) and anything else matters to
`OSDynamicCast(OSData, ...)`; the classes come from the kernel's libkern, which
is not part of the sources. -/
inductive OSObject where
  | OSData (bytes : List Nat)
  | OSString (chars : String)
  | OSNumber (value : Nat)
  deriving DecidableEq, Repr

/-- Modelled from the spec: `OSDynamicCast(OSData, obj)`, which gives the bytes
of `obj` when it is a byte-string and null when it is null or of another
class. -/
def OSDynamicCast_OSData : Option OSObject → Option (List Nat)
  | some (OSObject.OSData bytes) => some bytes
  | _ => none

/-- Modelled from the spec: `OSData::isEqualTo(bytes, numOfBytes)`, a libkern
routine that is not part of the sources. The spec calls the comparison
string-exact, neither a prefix nor a case-insensitive one: the property's bytes
are the first `numOfBytes` bytes of the literal, no fewer and no more. -/
def OSData_isEqualTo (self : List Nat) (bytes : List Nat) (numOfBytes : Nat) : Bool :=
  decide (self = bytes.take numOfBytes)

/-- The array `"EFI64"`: the five ASCII characters and the terminator, so that
`sizeof("EFI64")` is 6. -/
def EFI64 : List Nat := [69, 70, 73, 54, 52, 0]

/-- Modelled from the spec: a device-tree entry as returned by
`IORegistryEntry::fromPath`, reduced to its named properties. -/
structure IORegistryEntry where
  properties : List (String × OSObject)
  deriving DecidableEq, Repr

/-- Modelled from the spec: `IORegistryEntry::getProperty(key)`, the value of
the named property, or null when the entry has none. -/
def IORegistryEntry.getProperty (e : IORegistryEntry) (key : String) : Option OSObject :=
  e.properties.lookup key

/-- The façade object `EfiRuntimeServices`: it holds the lock handle
`accessLock` (an `IOLock *`, `0` when null). -/
structure EfiRuntimeServices where
  accessLock : Nat
  deriving DecidableEq, Repr

/-- The kernel lock primitives `IOLockLock` and `IOLockUnlock`, acting on a lock
subsystem of unspecified state `σ`. Nothing is assumed about them. -/
structure LockOps (σ : Type) where
  IOLockLock : Nat → σ → σ
  IOLockUnlock : Nat → σ → σ

/-- The process-wide state: the static pointer `EfiRuntimeServices::instance`
(`none` when null), the state of the kernel's locks, and the lines logged. -/
structure State (σ : Type) where
  instancePtr : Option EfiRuntimeServices
  locks : σ
  log : List LogLine

/-- One run of `EfiRuntimeServices::activate()`. `efi` is what
`IORegistryEntry::fromPath("/efi", gIODTPlane)` returns (`none` for null) and
`IOLockAlloc` is what the lock allocator returns if it is called (`0` for
null). `new EfiRuntimeServices` yields a fresh object; `efi->release()` and
`delete services` have no effect on the state kept here. -/
def activate {σ : Type} (efi : Option IORegistryEntry) (IOLockAlloc : Nat)
    (s : State σ) : State σ :=
  match efi with
  | some entry =>
    let abi := OSDynamicCast_OSData (entry.getProperty "firmware-abi")
    let services : Option EfiRuntimeServices :=
      match abi with
      | some bytes =>
        if OSData_isEqualTo bytes EFI64 EFI64.length then some { accessLock := 0 } else none
      | none => none
    let s1 : State σ :=
      if services.isSome then s
      else { s with log := s.log ++ [LogLine.SYSLOG "invalid or unsupported firmware abi"] }
    match services with
    | some services =>
      let services := { services with accessLock := IOLockAlloc }
      if services.accessLock ≠ 0 then
        { s1 with instancePtr := some services }
      else
        { s1 with log := s1.log ++ [LogLine.SYSLOG "failed to allocate efi services lock"] }
    | none => s1
  | none =>
    { s with log := s.log ++ [LogLine.SYSLOG "missing efi device"] }

/-- The accessor `EfiRuntimeServices::get(lock)`: the returned pointer and the
state afterwards. -/
def get {σ : Type} (L : LockOps σ) (lock : Bool) (s : State σ) :
    Option EfiRuntimeServices × State σ :=
  match s.instancePtr, lock with
  | some inst, true => (s.instancePtr, { s with locks := L.IOLockLock inst.accessLock s.locks })
  | _, _ => (s.instancePtr, s)

/-- The release `EfiRuntimeServices::put()`. -/
def put {σ : Type} (L : LockOps σ) (s : State σ) : State σ :=
  match s.instancePtr with
  | some inst => { s with locks := L.IOLockUnlock inst.accessLock s.locks }
  | none => s

/-- A call of one of the three lifecycle entry points, with what the platform
answers during an `activate()`. -/
inductive Op where
  | activate (efi : Option IORegistryEntry) (IOLockAlloc : Nat)
  | get (lock : Bool)
  | put

/-- The state after one lifecycle call. -/
def step {σ : Type} (L : LockOps σ) (s : State σ) : Op → State σ
  | Op.activate efi lockAlloc => activate efi lockAlloc s
  | Op.get lock => (get L lock s).2
  | Op.put => put L s

/-- The state after a sequence of lifecycle calls, first call first. -/
def run {σ : Type} (L : LockOps σ) (s : State σ) (ops : List Op) : State σ :=
  ops.foldl (step L) s

/-! ## Lemmas: the call dispatcher, path by path -/

theorem performEfiCall_zero (asm : Trampoline) (fw : Firmware)
    (efi_reg : Option pal_efi_registers) (stack_contents : Option (List Nat))
    (stack_contents_size efi_status : Nat) :
    performEfiCall asm fw 0 efi_reg stack_contents stack_contents_size efi_status =
      { code := KERN_INVALID_ADDRESS, efi_reg := efi_reg, efi_status := efi_status,
        calls := [] } := by
  simp [performEfiCall]

theorem performEfiCall_bad_argument (asm : Trampoline) (fw : Firmware) (func : Nat)
    (efi_reg : Option pal_efi_registers) (stack_contents : Option (List Nat))
    (stack_contents_size efi_status : Nat) (hfunc : func ≠ 0)
    (harg : efi_reg = none ∨ stack_contents = none ∨ stack_contents_size % 16 ≠ 0) :
    performEfiCall asm fw func efi_reg stack_contents stack_contents_size efi_status =
      { code := KERN_INVALID_ARGUMENT, efi_reg := efi_reg, efi_status := efi_status,
        calls := [] } := by
  unfold performEfiCall
  rw [if_neg hfunc]
  rcases harg with h | h | h
  · subst h; rfl
  · subst h; cases efi_reg <;> rfl
  · have hd : decide (stack_contents_size % 16 ≠ 0) = true := decide_eq_true h
    rw [hd]
    cases efi_reg <;> cases stack_contents <;> rfl

/-- With a frame, a buffer and a length that is a multiple of 16, the
dispatcher is decided by the function address and the firmware globals. -/
theorem performEfiCall_valid_arguments (asm : Trampoline) (fw : Firmware) (func : Nat)
    (regs : pal_efi_registers) (stack : List Nat) (stack_contents_size efi_status : Nat)
    (hsize : stack_contents_size % 16 = 0) :
    performEfiCall asm fw func (some regs) (some stack) stack_contents_size efi_status =
      if func = 0 then
        { code := KERN_INVALID_ADDRESS, efi_reg := some regs, efi_status := efi_status,
          calls := [] }
      else if fw.gPEEFISystemTable = 0 ∨ fw.gPEEFIRuntimeServices = none then
        { code := KERN_NOT_SUPPORTED, efi_reg := some regs, efi_status := efi_status,
          calls := [] }
      else
        { code := KERN_SUCCESS,
          efi_reg := some (asm func regs stack stack_contents_size),
          efi_status := (asm func regs stack stack_contents_size).rax,
          calls := [{ func := func, efi_reg := regs, stack_contents := stack,
                      stack_contents_size := stack_contents_size }] } := by
  unfold performEfiCall
  have hd : decide (stack_contents_size % 16 ≠ 0) = false := by simp [hsize]
  rw [hd]

theorem performEfiCall_no_firmware (asm : Trampoline) (fw : Firmware) (func : Nat)
    (regs : pal_efi_registers) (stack : List Nat) (stack_contents_size efi_status : Nat)
    (hfunc : func ≠ 0) (hsize : stack_contents_size % 16 = 0)
    (hfw : fw.gPEEFISystemTable = 0 ∨ fw.gPEEFIRuntimeServices = none) :
    performEfiCall asm fw func (some regs) (some stack) stack_contents_size efi_status =
      { code := KERN_NOT_SUPPORTED, efi_reg := some regs, efi_status := efi_status,
        calls := [] } := by
  rw [performEfiCall_valid_arguments asm fw func regs stack stack_contents_size efi_status
    hsize, if_neg hfunc, if_pos hfw]

theorem performEfiCall_ok (asm : Trampoline) (fw : Firmware) (func : Nat)
    (regs : pal_efi_registers) (stack : List Nat) (stack_contents_size efi_status : Nat)
    (hfunc : func ≠ 0) (hsize : stack_contents_size % 16 = 0)
    (hst : fw.gPEEFISystemTable ≠ 0) (hrt : fw.gPEEFIRuntimeServices ≠ none) :
    performEfiCall asm fw func (some regs) (some stack) stack_contents_size efi_status =
      { code := KERN_SUCCESS,
        efi_reg := some (asm func regs stack stack_contents_size),
        efi_status := (asm func regs stack stack_contents_size).rax,
        calls := [{ func := func, efi_reg := regs, stack_contents := stack,
                    stack_contents_size := stack_contents_size }] } := by
  rw [performEfiCall_valid_arguments asm fw func regs stack stack_contents_size efi_status
    hsize, if_neg hfunc, if_neg (by rintro (h | h) <;> contradiction)]

/-- Whenever one of the three preconditions fails, the dispatcher returns a
failure code, makes no call and writes nothing. -/
theorem performEfiCall_refused (asm : Trampoline) (fw : Firmware) (func : Nat)
    (efi_reg : Option pal_efi_registers) (stack_contents : Option (List Nat))
    (stack_contents_size efi_status : Nat)
    (hn : ¬ (func ≠ 0 ∧
        (efi_reg ≠ none ∧ stack_contents ≠ none ∧ stack_contents_size % 16 = 0) ∧
        (fw.gPEEFISystemTable ≠ 0 ∧ fw.gPEEFIRuntimeServices ≠ none))) :
    (performEfiCall asm fw func efi_reg stack_contents stack_contents_size
        efi_status).code ≠ KERN_SUCCESS ∧
    (performEfiCall asm fw func efi_reg stack_contents stack_contents_size
        efi_status).efi_reg = efi_reg ∧
    (performEfiCall asm fw func efi_reg stack_contents stack_contents_size
        efi_status).efi_status = efi_status ∧
    (performEfiCall asm fw func efi_reg stack_contents stack_contents_size
        efi_status).calls = [] := by
  by_cases hfunc : func = 0
  · subst hfunc
    rw [performEfiCall_zero]
    exact ⟨by simp, rfl, rfl, rfl⟩
  · by_cases harg : efi_reg = none ∨ stack_contents = none ∨ stack_contents_size % 16 ≠ 0
    · rw [performEfiCall_bad_argument asm fw func efi_reg stack_contents
        stack_contents_size efi_status hfunc harg]
      exact ⟨by simp, rfl, rfl, rfl⟩
    · have h1 : efi_reg ≠ none := fun h => harg (Or.inl h)
      have h2 : stack_contents ≠ none := fun h => harg (Or.inr (Or.inl h))
      have h3 : stack_contents_size % 16 = 0 := by
        by_contra h; exact harg (Or.inr (Or.inr h))
      obtain ⟨regs, hr⟩ := Option.ne_none_iff_exists'.mp h1
      obtain ⟨stack, hs⟩ := Option.ne_none_iff_exists'.mp h2
      subst hr; subst hs
      have hfw : fw.gPEEFISystemTable = 0 ∨ fw.gPEEFIRuntimeServices = none := by
        by_contra h
        exact hn ⟨hfunc, ⟨h1, h2, h3⟩, fun h' => h (Or.inl h'), fun h' => h (Or.inr h')⟩
      rw [performEfiCall_no_firmware asm fw func regs stack stack_contents_size
        efi_status hfunc h3 hfw]
      exact ⟨by simp, rfl, rfl, rfl⟩

/-! ## Theorems: the call dispatcher -/

/-- C1: a zero function address yields `KERN_INVALID_ADDRESS` whatever the
frame pointer, buffer pointer, length and firmware globals are (null pointers,
lengths that are not multiples of 16 and unset tables included); the
trampoline is not invoked and neither the frame nor the output status is
written. -/
theorem performEfiCall_null_func (asm : Trampoline) (fw : Firmware)
    (efi_reg : Option pal_efi_registers) (stack_contents : Option (List Nat))
    (stack_contents_size efi_status : Nat) :
    performEfiCall asm fw 0 efi_reg stack_contents stack_contents_size efi_status =
      { code := KERN_INVALID_ADDRESS, efi_reg := efi_reg, efi_status := efi_status,
        calls := [] } :=
  performEfiCall_zero asm fw efi_reg stack_contents stack_contents_size efi_status

/-- Instance of C1: address 0 with a null frame, a null buffer, the length 7
and both firmware globals unset. -/
theorem performEfiCall_null_func_witness :
    performEfiCall (fun _ r _ _ => { r with rax := 5 })
        { gPEEFIRuntimeServices := none, gPEEFISystemTable := 0 } 0 none none 7 99 =
      { code := KERN_INVALID_ADDRESS, efi_reg := none, efi_status := 99, calls := [] } :=
  performEfiCall_null_func _ _ none none 7 99

/-- C2: with a non-zero function address, a null frame pointer, a null buffer
pointer or a length that is not a multiple of 16 yields
`KERN_INVALID_ARGUMENT`, whatever the firmware globals are; the trampoline is
not invoked and neither the frame nor the output status is written. -/
theorem performEfiCall_invalid_argument (asm : Trampoline) (fw : Firmware) (func : Nat)
    (efi_reg : Option pal_efi_registers) (stack_contents : Option (List Nat))
    (stack_contents_size efi_status : Nat) (hfunc : func ≠ 0)
    (harg : efi_reg = none ∨ stack_contents = none ∨ stack_contents_size % 16 ≠ 0) :
    performEfiCall asm fw func efi_reg stack_contents stack_contents_size efi_status =
      { code := KERN_INVALID_ARGUMENT, efi_reg := efi_reg, efi_status := efi_status,
        calls := [] } :=
  performEfiCall_bad_argument asm fw func efi_reg stack_contents stack_contents_size
    efi_status hfunc harg

/-- Witness of C2: a frame and a buffer with the length 40, which is not a
multiple of 16, on a machine whose firmware globals are both set. -/
theorem performEfiCall_invalid_argument_witness :
    (7 ≠ 0 ∧ ((some pal_efi_registers.zeroed = none ∨ some (List.replicate 40 0) = none ∨
        40 % 16 ≠ 0))) ∧
    performEfiCall (fun _ r _ _ => { r with rax := 5 })
        { gPEEFIRuntimeServices := some ⟨1, 2, 3⟩, gPEEFISystemTable := 4096 }
        7 (some pal_efi_registers.zeroed) (some (List.replicate 40 0)) 40 99 =
      { code := KERN_INVALID_ARGUMENT, efi_reg := some pal_efi_registers.zeroed,
        efi_status := 99, calls := [] } :=
  ⟨⟨by decide, Or.inr (Or.inr (by decide))⟩,
   performEfiCall_invalid_argument _ _ 7 _ _ 40 99 (by decide)
     (Or.inr (Or.inr (by decide)))⟩

/-- C3: with a non-zero function address, a frame, a buffer and a length that
is a multiple of 16, an unset system-table pointer or an unset
runtime-services pointer (either alone) yields `KERN_NOT_SUPPORTED`; the
trampoline is not invoked and neither the frame nor the output status is
written. -/
theorem performEfiCall_not_supported (asm : Trampoline) (fw : Firmware) (func : Nat)
    (regs : pal_efi_registers) (stack : List Nat) (stack_contents_size efi_status : Nat)
    (hfunc : func ≠ 0) (hsize : stack_contents_size % 16 = 0)
    (hfw : fw.gPEEFISystemTable = 0 ∨ fw.gPEEFIRuntimeServices = none) :
    performEfiCall asm fw func (some regs) (some stack) stack_contents_size efi_status =
      { code := KERN_NOT_SUPPORTED, efi_reg := some regs, efi_status := efi_status,
        calls := [] } :=
  performEfiCall_no_firmware asm fw func regs stack stack_contents_size efi_status
    hfunc hsize hfw

/-- Witness of C3: valid arguments, the runtime-services table set and the
system-table pointer unset. -/
theorem performEfiCall_not_supported_witness :
    (7 ≠ 0 ∧ 48 % 16 = 0 ∧
      ((Firmware.mk (some ⟨1, 2, 3⟩) 0).gPEEFISystemTable = 0 ∨
       (Firmware.mk (some ⟨1, 2, 3⟩) 0).gPEEFIRuntimeServices = none)) ∧
    performEfiCall (fun _ r _ _ => { r with rax := 5 }) (Firmware.mk (some ⟨1, 2, 3⟩) 0)
        7 (some pal_efi_registers.zeroed) (some (List.replicate 48 0)) 48 99 =
      { code := KERN_NOT_SUPPORTED, efi_reg := some pal_efi_registers.zeroed,
        efi_status := 99, calls := [] } :=
  ⟨⟨by decide, by decide, Or.inl rfl⟩,
   performEfiCall_not_supported _ _ 7 _ _ 48 99 (by decide) (by decide) (Or.inl rfl)⟩

/-- C4: the trampoline is invoked if and only if the function address is
non-zero, the frame and the buffer are non-null, the length is a multiple of
16 and both firmware pointers are set. In that case it is invoked exactly once,
with the given address, frame, buffer and length, the result is `KERN_SUCCESS`,
the frame is the one the trampoline leaves and the output status is its `rax`
slot. In every other case the result is a failure code and the frame and the
output status are as they were. -/
theorem performEfiCall_calls_iff (asm : Trampoline) (fw : Firmware) (func : Nat)
    (efi_reg : Option pal_efi_registers) (stack_contents : Option (List Nat))
    (stack_contents_size efi_status : Nat) :
    ((performEfiCall asm fw func efi_reg stack_contents stack_contents_size
          efi_status).calls ≠ [] ↔
      (func ≠ 0 ∧ (efi_reg ≠ none ∧ stack_contents ≠ none ∧ stack_contents_size % 16 = 0) ∧
        (fw.gPEEFISystemTable ≠ 0 ∧ fw.gPEEFIRuntimeServices ≠ none))) ∧
    (∀ regs stack, efi_reg = some regs → stack_contents = some stack →
      func ≠ 0 → stack_contents_size % 16 = 0 →
      fw.gPEEFISystemTable ≠ 0 → fw.gPEEFIRuntimeServices ≠ none →
      performEfiCall asm fw func efi_reg stack_contents stack_contents_size efi_status =
        { code := KERN_SUCCESS,
          efi_reg := some (asm func regs stack stack_contents_size),
          efi_status := (asm func regs stack stack_contents_size).rax,
          calls := [{ func := func, efi_reg := regs, stack_contents := stack,
                      stack_contents_size := stack_contents_size }] }) ∧
    (¬ (func ≠ 0 ∧ (efi_reg ≠ none ∧ stack_contents ≠ none ∧ stack_contents_size % 16 = 0) ∧
        (fw.gPEEFISystemTable ≠ 0 ∧ fw.gPEEFIRuntimeServices ≠ none)) →
      (performEfiCall asm fw func efi_reg stack_contents stack_contents_size
          efi_status).code ≠ KERN_SUCCESS ∧
      (performEfiCall asm fw func efi_reg stack_contents stack_contents_size
          efi_status).efi_reg = efi_reg ∧
      (performEfiCall asm fw func efi_reg stack_contents stack_contents_size
          efi_status).efi_status = efi_status ∧
      (performEfiCall asm fw func efi_reg stack_contents stack_contents_size
          efi_status).calls = []) := by
  have hsucc : ∀ regs stack, efi_reg = some regs → stack_contents = some stack →
      func ≠ 0 → stack_contents_size % 16 = 0 →
      fw.gPEEFISystemTable ≠ 0 → fw.gPEEFIRuntimeServices ≠ none →
      performEfiCall asm fw func efi_reg stack_contents stack_contents_size efi_status =
        { code := KERN_SUCCESS,
          efi_reg := some (asm func regs stack stack_contents_size),
          efi_status := (asm func regs stack stack_contents_size).rax,
          calls := [{ func := func, efi_reg := regs, stack_contents := stack,
                      stack_contents_size := stack_contents_size }] } := by
    intro regs stack hr hs hfunc hsize hst hrt
    subst hr; subst hs
    exact performEfiCall_ok asm fw func regs stack stack_contents_size efi_status
      hfunc hsize hst hrt
  refine ⟨⟨fun hc => ?_, fun hp => ?_⟩, hsucc,
    performEfiCall_refused asm fw func efi_reg stack_contents stack_contents_size
      efi_status⟩
  · by_contra hn
    exact hc (performEfiCall_refused asm fw func efi_reg stack_contents
      stack_contents_size efi_status hn).2.2.2
  · obtain ⟨hfunc, ⟨h1, h2, h3⟩, hst, hrt⟩ := hp
    obtain ⟨regs, hr⟩ := Option.ne_none_iff_exists'.mp h1
    obtain ⟨stack, hs⟩ := Option.ne_none_iff_exists'.mp h2
    rw [hsucc regs stack hr hs hfunc h3 hst hrt]
    simp

/-- Witness of C4: all preconditions hold, the trampoline writes 5 to `rax`;
one call is made, the result is `KERN_SUCCESS` and the output status is 5. -/
theorem performEfiCall_calls_iff_witness :
    performEfiCall (fun _ r _ _ => { r with rax := 5 })
        { gPEEFIRuntimeServices := some ⟨1, 2, 3⟩, gPEEFISystemTable := 4096 }
        7 (some ⟨10, 20, 30, 40, 0⟩) (some (List.replicate 48 0)) 48 99 =
      { code := KERN_SUCCESS, efi_reg := some ⟨10, 20, 30, 40, 5⟩, efi_status := 5,
        calls := [{ func := 7, efi_reg := ⟨10, 20, 30, 40, 0⟩,
                    stack_contents := List.replicate 48 0, stack_contents_size := 48 }] } :=
  (performEfiCall_calls_iff (fun _ r _ _ => { r with rax := 5 })
      { gPEEFIRuntimeServices := some ⟨1, 2, 3⟩, gPEEFISystemTable := 4096 }
      7 (some ⟨10, 20, 30, 40, 0⟩) (some (List.replicate 48 0)) 48 99).2.1
    ⟨10, 20, 30, 40, 0⟩ (List.replicate 48 0) rfl rfl (by decide) (by decide)
    (by decide) (by decide)

/-! ## Lemmas: the stack buffer and the façade -/

theorem uint64Array_six_length (a b c d e f : Nat) :
    (uint64Array [a, b, c, d, e, f]).length = 48 := rfl

theorem stackSlot_variable_stack (data : Nat) (hdata : data < 2 ^ 64) :
    stackSlot (uint64Array [0, 0, 0, 0, data, 0]) 0 = 0 ∧
    stackSlot (uint64Array [0, 0, 0, 0, data, 0]) 1 = 0 ∧
    stackSlot (uint64Array [0, 0, 0, 0, data, 0]) 2 = 0 ∧
    stackSlot (uint64Array [0, 0, 0, 0, data, 0]) 3 = 0 ∧
    stackSlot (uint64Array [0, 0, 0, 0, data, 0]) 4 = data ∧
    stackSlot (uint64Array [0, 0, 0, 0, data, 0]) 5 = 0 := by
  refine ⟨?_, ?_, ?_, ?_, ?_, ?_⟩ <;> simp [stackSlot, uint64Array, le64]
  omega

theorem getVariable_unfold (asm : Trampoline) (fw : Firmware) (rt : EFI_RUNTIME_SERVICES_64)
    (name guid attr size data : Nat) (hrt : fw.gPEEFIRuntimeServices = some rt) :
    getVariable asm fw name guid attr size data =
      if rt.GetVariable = 0 then
        some { ret := 0, calls := [],
               log := [LogLine.DBGLOG_code "efi call GetVariable failure %d"
                        KERN_INVALID_ADDRESS] }
      else if fw.gPEEFISystemTable = 0 then
        some { ret := 0, calls := [],
               log := [LogLine.DBGLOG_code "efi call GetVariable failure %d"
                        KERN_NOT_SUPPORTED] }
      else
        some { ret := (asm rt.GetVariable ⟨name, guid, attr, size, 0⟩
                        (uint64Array [0, 0, 0, 0, data, 0]) 48).rax,
               calls := [{ func := rt.GetVariable, efi_reg := ⟨name, guid, attr, size, 0⟩,
                           stack_contents := uint64Array [0, 0, 0, 0, data, 0],
                           stack_contents_size := 48 }],
               log := [LogLine.DBGLOG_status
                        "successful efi call GetVariable with response %08llX"
                        (asm rt.GetVariable ⟨name, guid, attr, size, 0⟩
                          (uint64Array [0, 0, 0, 0, data, 0]) 48).rax] } := by
  unfold getVariable
  rw [hrt]
  simp only [uint64Array_six_length, pal_efi_registers.zeroed, EFI_SUCCESS]
  rw [performEfiCall_valid_arguments asm fw _ _ _ 48 0 (by decide)]
  by_cases hf : rt.GetVariable = 0
  · simp [hf]
  · by_cases hs : fw.gPEEFISystemTable = 0
    · simp [hf, hs]
    · simp [hf, hs, hrt]

theorem setVariable_unfold (asm : Trampoline) (fw : Firmware) (rt : EFI_RUNTIME_SERVICES_64)
    (name guid attr size data : Nat) (hrt : fw.gPEEFIRuntimeServices = some rt) :
    setVariable asm fw name guid attr size data =
      if rt.SetVariable = 0 then
        some { ret := 0, calls := [],
               log := [LogLine.DBGLOG_code "efi call SetVariable failure %d"
                        KERN_INVALID_ADDRESS] }
      else if fw.gPEEFISystemTable = 0 then
        some { ret := 0, calls := [],
               log := [LogLine.DBGLOG_code "efi call SetVariable failure %d"
                        KERN_NOT_SUPPORTED] }
      else
        some { ret := (asm rt.SetVariable ⟨name, guid, attr, size, 0⟩
                        (uint64Array [0, 0, 0, 0, data, 0]) 48).rax,
               calls := [{ func := rt.SetVariable, efi_reg := ⟨name, guid, attr, size, 0⟩,
                           stack_contents := uint64Array [0, 0, 0, 0, data, 0],
                           stack_contents_size := 48 }],
               log := [LogLine.DBGLOG_status
                        "successful efi call SetVariable with response %08llX"
                        (asm rt.SetVariable ⟨name, guid, attr, size, 0⟩
                          (uint64Array [0, 0, 0, 0, data, 0]) 48).rax] } := by
  unfold setVariable
  rw [hrt]
  simp only [uint64Array_six_length, pal_efi_registers.zeroed, EFI_SUCCESS]
  rw [performEfiCall_valid_arguments asm fw _ _ _ 48 0 (by decide)]
  by_cases hf : rt.SetVariable = 0
  · simp [hf]
  · by_cases hs : fw.gPEEFISystemTable = 0
    · simp [hf, hs]
    · simp [hf, hs, hrt]

theorem resetSystem_unfold (asm : Trampoline) (fw : Firmware) (rt : EFI_RUNTIME_SERVICES_64)
    (type : Nat) (hrt : fw.gPEEFIRuntimeServices = some rt) :
    resetSystem asm fw type =
      if rt.ResetSystem = 0 then
        some { ret := (), calls := [],
               log := [LogLine.DBGLOG_code "efi call failure %d" KERN_INVALID_ADDRESS] }
      else if fw.gPEEFISystemTable = 0 then
        some { ret := (), calls := [],
               log := [LogLine.DBGLOG_code "efi call failure %d" KERN_NOT_SUPPORTED] }
      else
        some { ret := (),
               calls := [{ func := rt.ResetSystem, efi_reg := ⟨type, 0, 0, 0, 0⟩,
                           stack_contents := List.replicate 48 0,
                           stack_contents_size := 48 }],
               log := [LogLine.DBGLOG_status "successful efi call with response %08llX"
                        (asm rt.ResetSystem ⟨type, 0, 0, 0, 0⟩
                          (List.replicate 48 0) 48).rax] } := by
  unfold resetSystem
  rw [hrt]
  simp only [List.length_replicate, pal_efi_registers.zeroed, EFI_SUCCESS]
  rw [performEfiCall_valid_arguments asm fw _ _ _ 48 0 (by decide)]
  by_cases hf : rt.ResetSystem = 0
  · simp [hf]
  · by_cases hs : fw.gPEEFISystemTable = 0
    · simp [hf, hs]
    · simp [hf, hs, hrt]

/-- The dispatcher's code on a frame, a buffer and the length 48. -/
theorem performEfiCall_48_code (asm : Trampoline) (fw : Firmware)
    (rt : EFI_RUNTIME_SERVICES_64) (func : Nat) (regs : pal_efi_registers)
    (stack : List Nat) (hrt : fw.gPEEFIRuntimeServices = some rt) :
    (performEfiCall asm fw func (some regs) (some stack) 48 EFI_SUCCESS).code =
      if func = 0 then KERN_INVALID_ADDRESS
      else if fw.gPEEFISystemTable = 0 then KERN_NOT_SUPPORTED
      else KERN_SUCCESS := by
  rw [performEfiCall_valid_arguments asm fw _ _ _ 48 _ (by decide)]
  by_cases hf : func = 0
  · simp [hf]
  · by_cases hs : fw.gPEEFISystemTable = 0
    · simp [hf, hs]
    · simp [hf, hs, hrt]

/-! ## Theorems: the façade -/

/-- C7: `getVariable` hands the dispatcher the `GetVariable` address of the
runtime-services table, the frame `rcx = name`, `rdx = guid`, `r8 = attr`,
`r9 = size`, `rax = 0`, and a 48-byte stack whose slots 0-3 and 5 are zero and
whose slot 4 is `data`: its returned value and its trampoline calls are those
of the dispatcher on these arguments. When the dispatcher succeeds, exactly
that call reaches the trampoline and the value returned is the `rax` slot the
trampoline leaves. -/
theorem getVariable_marshalling (asm : Trampoline) (fw : Firmware)
    (rt : EFI_RUNTIME_SERVICES_64) (name guid attr size data : Nat)
    (hrt : fw.gPEEFIRuntimeServices = some rt) (hdata : data < 2 ^ 64) :
    ((getVariable asm fw name guid attr size data).map (fun o => (o.ret, o.calls)) =
      some ((performEfiCall asm fw rt.GetVariable
              (some { rcx := name, rdx := guid, r8 := attr, r9 := size, rax := 0 })
              (some (uint64Array [0, 0, 0, 0, data, 0])) 48 EFI_SUCCESS).efi_status,
            (performEfiCall asm fw rt.GetVariable
              (some { rcx := name, rdx := guid, r8 := attr, r9 := size, rax := 0 })
              (some (uint64Array [0, 0, 0, 0, data, 0])) 48 EFI_SUCCESS).calls)) ∧
    ((uint64Array [0, 0, 0, 0, data, 0]).length = 48 ∧
      stackSlot (uint64Array [0, 0, 0, 0, data, 0]) 0 = 0 ∧
      stackSlot (uint64Array [0, 0, 0, 0, data, 0]) 1 = 0 ∧
      stackSlot (uint64Array [0, 0, 0, 0, data, 0]) 2 = 0 ∧
      stackSlot (uint64Array [0, 0, 0, 0, data, 0]) 3 = 0 ∧
      stackSlot (uint64Array [0, 0, 0, 0, data, 0]) 4 = data ∧
      stackSlot (uint64Array [0, 0, 0, 0, data, 0]) 5 = 0) ∧
    ((performEfiCall asm fw rt.GetVariable
          (some { rcx := name, rdx := guid, r8 := attr, r9 := size, rax := 0 })
          (some (uint64Array [0, 0, 0, 0, data, 0])) 48 EFI_SUCCESS).code = KERN_SUCCESS →
      (getVariable asm fw name guid attr size data).map (fun o => (o.ret, o.calls)) =
        some ((asm rt.GetVariable
                { rcx := name, rdx := guid, r8 := attr, r9 := size, rax := 0 }
                (uint64Array [0, 0, 0, 0, data, 0]) 48).rax,
              [{ func := rt.GetVariable,
                 efi_reg := { rcx := name, rdx := guid, r8 := attr, r9 := size, rax := 0 },
                 stack_contents := uint64Array [0, 0, 0, 0, data, 0],
                 stack_contents_size := 48 }])) := by
  refine ⟨?_, ⟨uint64Array_six_length _ _ _ _ _ _, stackSlot_variable_stack data hdata⟩, ?_⟩
  · rw [getVariable_unfold asm fw rt name guid attr size data hrt,
      performEfiCall_valid_arguments asm fw _ _ _ 48 _ (by decide)]
    by_cases hf : rt.GetVariable = 0
    · simp [hf, EFI_SUCCESS]
    · by_cases hs : fw.gPEEFISystemTable = 0
      · simp [hf, hs, EFI_SUCCESS]
      · simp [hf, hs, hrt]
  · rw [performEfiCall_48_code asm fw rt _ _ _ hrt,
      getVariable_unfold asm fw rt name guid attr size data hrt]
    by_cases hf : rt.GetVariable = 0
    · simp [hf]
    · by_cases hs : fw.gPEEFISystemTable = 0
      · simp [hf, hs]
      · simp [hf, hs]

/-- Witness of C7: the `GetVariable` slot is 4096, both firmware globals are
set, and the trampoline leaves 14 in `rax`; `getVariable` returns 14 after one
call on address 4096, and slot 4 of the stack holds the data address 500. -/
theorem getVariable_marshalling_witness :
    (getVariable (fun _ r _ _ => { r with rax := 14 })
        { gPEEFIRuntimeServices := some { GetVariable := 4096, SetVariable := 8192,
                                          ResetSystem := 12288 },
          gPEEFISystemTable := 1 } 100 200 300 400 500).map (fun o => (o.ret, o.calls)) =
      some (14, [{ func := 4096,
                   efi_reg := { rcx := 100, rdx := 200, r8 := 300, r9 := 400, rax := 0 },
                   stack_contents := uint64Array [0, 0, 0, 0, 500, 0],
                   stack_contents_size := 48 }]) ∧
    stackSlot (uint64Array [0, 0, 0, 0, 500, 0]) 4 = 500 :=
  ⟨(getVariable_marshalling (fun _ r _ _ => { r with rax := 14 })
      { gPEEFIRuntimeServices := some { GetVariable := 4096, SetVariable := 8192,
                                        ResetSystem := 12288 },
        gPEEFISystemTable := 1 }
      { GetVariable := 4096, SetVariable := 8192, ResetSystem := 12288 }
      100 200 300 400 500 rfl (by norm_num)).2.2 rfl,
   (getVariable_marshalling (fun _ r _ _ => { r with rax := 14 })
      { gPEEFIRuntimeServices := some { GetVariable := 4096, SetVariable := 8192,
                                        ResetSystem := 12288 },
        gPEEFISystemTable := 1 }
      { GetVariable := 4096, SetVariable := 8192, ResetSystem := 12288 }
      100 200 300 400 500 rfl (by norm_num)).2.1.2.2.2.2.2.1⟩

/-- C8: `setVariable` hands the dispatcher the `SetVariable` address of the
runtime-services table, the frame `rcx = name`, `rdx = guid`, `r8 = attr` (a
32-bit value, so the upper 32 bits of the slot are zero), `r9 = size`,
`rax = 0`, and the same 48-byte stack as `getVariable` (slots 0-3 and 5 zero,
slot 4 `data`): its returned value and its trampoline calls are those of the
dispatcher on these arguments. When the dispatcher succeeds, exactly that call
reaches the trampoline and the value returned is the `rax` slot the trampoline
leaves. -/
theorem setVariable_marshalling (asm : Trampoline) (fw : Firmware)
    (rt : EFI_RUNTIME_SERVICES_64) (name guid attr size data : Nat)
    (hrt : fw.gPEEFIRuntimeServices = some rt) (hattr : attr < 2 ^ 32)
    (hdata : data < 2 ^ 64) :
    ((setVariable asm fw name guid attr size data).map (fun o => (o.ret, o.calls)) =
      some ((performEfiCall asm fw rt.SetVariable
              (some { rcx := name, rdx := guid, r8 := attr, r9 := size, rax := 0 })
              (some (uint64Array [0, 0, 0, 0, data, 0])) 48 EFI_SUCCESS).efi_status,
            (performEfiCall asm fw rt.SetVariable
              (some { rcx := name, rdx := guid, r8 := attr, r9 := size, rax := 0 })
              (some (uint64Array [0, 0, 0, 0, data, 0])) 48 EFI_SUCCESS).calls)) ∧
    (({ rcx := name, rdx := guid, r8 := attr, r9 := size, rax := 0 } :
        pal_efi_registers).r8 / 2 ^ 32 = 0) ∧
    ((uint64Array [0, 0, 0, 0, data, 0]).length = 48 ∧
      stackSlot (uint64Array [0, 0, 0, 0, data, 0]) 0 = 0 ∧
      stackSlot (uint64Array [0, 0, 0, 0, data, 0]) 1 = 0 ∧
      stackSlot (uint64Array [0, 0, 0, 0, data, 0]) 2 = 0 ∧
      stackSlot (uint64Array [0, 0, 0, 0, data, 0]) 3 = 0 ∧
      stackSlot (uint64Array [0, 0, 0, 0, data, 0]) 4 = data ∧
      stackSlot (uint64Array [0, 0, 0, 0, data, 0]) 5 = 0) ∧
    ((performEfiCall asm fw rt.SetVariable
          (some { rcx := name, rdx := guid, r8 := attr, r9 := size, rax := 0 })
          (some (uint64Array [0, 0, 0, 0, data, 0])) 48 EFI_SUCCESS).code = KERN_SUCCESS →
      (setVariable asm fw name guid attr size data).map (fun o => (o.ret, o.calls)) =
        some ((asm rt.SetVariable
                { rcx := name, rdx := guid, r8 := attr, r9 := size, rax := 0 }
                (uint64Array [0, 0, 0, 0, data, 0]) 48).rax,
              [{ func := rt.SetVariable,
                 efi_reg := { rcx := name, rdx := guid, r8 := attr, r9 := size, rax := 0 },
                 stack_contents := uint64Array [0, 0, 0, 0, data, 0],
                 stack_contents_size := 48 }])) := by
  refine ⟨?_, Nat.div_eq_of_lt hattr,
    ⟨uint64Array_six_length _ _ _ _ _ _, stackSlot_variable_stack data hdata⟩, ?_⟩
  · rw [setVariable_unfold asm fw rt name guid attr size data hrt,
      performEfiCall_valid_arguments asm fw _ _ _ 48 _ (by decide)]
    by_cases hf : rt.SetVariable = 0
    · simp [hf, EFI_SUCCESS]
    · by_cases hs : fw.gPEEFISystemTable = 0
      · simp [hf, hs, EFI_SUCCESS]
      · simp [hf, hs, hrt]
  · rw [performEfiCall_48_code asm fw rt _ _ _ hrt,
      setVariable_unfold asm fw rt name guid attr size data hrt]
    by_cases hf : rt.SetVariable = 0
    · simp [hf]
    · by_cases hs : fw.gPEEFISystemTable = 0
      · simp [hf, hs]
      · simp [hf, hs]

/-- Witness of C8: the `SetVariable` slot is 8192, both firmware globals are
set, the attributes are 7 and the size is 16; `setVariable` returns the 14 the
trampoline leaves in `rax`, after one call whose frame has `r8 = 7` and
`r9 = 16`. -/
theorem setVariable_marshalling_witness :
    (setVariable (fun _ r _ _ => { r with rax := 14 })
        { gPEEFIRuntimeServices := some { GetVariable := 4096, SetVariable := 8192,
                                          ResetSystem := 12288 },
          gPEEFISystemTable := 1 } 100 200 7 16 500).map (fun o => (o.ret, o.calls)) =
      some (14, [{ func := 8192,
                   efi_reg := { rcx := 100, rdx := 200, r8 := 7, r9 := 16, rax := 0 },
                   stack_contents := uint64Array [0, 0, 0, 0, 500, 0],
                   stack_contents_size := 48 }]) :=
  (setVariable_marshalling (fun _ r _ _ => { r with rax := 14 })
      { gPEEFIRuntimeServices := some { GetVariable := 4096, SetVariable := 8192,
                                        ResetSystem := 12288 },
        gPEEFISystemTable := 1 }
      { GetVariable := 4096, SetVariable := 8192, ResetSystem := 12288 }
      100 200 7 16 500 rfl (by norm_num) (by norm_num)).2.2.2 rfl

/-- C9: `resetSystem(type)` hands the dispatcher the `ResetSystem` address, the
frame `rcx = type`, `rdx = EFI_SUCCESS = 0`, `r8 = r9 = rax = 0` and 48 zero
bytes. When the `ResetSystem` slot is non-zero and both firmware pointers are
set, exactly one trampoline call is made, on that address with that frame and
stack. The operation returns no value: what the caller gets back, and the
calls made, are the same whatever the trampoline leaves in the frame. -/
theorem resetSystem_single_call (asm : Trampoline) (fw : Firmware)
    (rt : EFI_RUNTIME_SERVICES_64) (type : Nat)
    (hrt : fw.gPEEFIRuntimeServices = some rt) :
    ((resetSystem asm fw type).map (fun o => o.calls) =
      some (performEfiCall asm fw rt.ResetSystem
              (some { rcx := type, rdx := EFI_SUCCESS, r8 := 0, r9 := 0, rax := 0 })
              (some (List.replicate 48 0)) 48 EFI_SUCCESS).calls) ∧
    EFI_SUCCESS = 0 ∧
    (rt.ResetSystem ≠ 0 → fw.gPEEFISystemTable ≠ 0 →
      (resetSystem asm fw type).map (fun o => (o.ret, o.calls)) =
        some ((), [{ func := rt.ResetSystem,
                     efi_reg := { rcx := type, rdx := 0, r8 := 0, r9 := 0, rax := 0 },
                     stack_contents := List.replicate 48 0,
                     stack_contents_size := 48 }])) ∧
    (∀ asm' : Trampoline,
      (resetSystem asm' fw type).map (fun o => (o.ret, o.calls)) =
        (resetSystem asm fw type).map (fun o => (o.ret, o.calls))) := by
  refine ⟨?_, rfl, ?_, ?_⟩
  · rw [resetSystem_unfold asm fw rt type hrt,
      performEfiCall_valid_arguments asm fw _ _ _ 48 _ (by decide)]
    by_cases hf : rt.ResetSystem = 0
    · simp [hf]
    · by_cases hs : fw.gPEEFISystemTable = 0
      · simp [hf, hs]
      · simp [hf, hs, hrt, EFI_SUCCESS]
  · intro hf hs
    rw [resetSystem_unfold asm fw rt type hrt]
    simp [hf, hs]
  · intro asm'
    rw [resetSystem_unfold asm fw rt type hrt, resetSystem_unfold asm' fw rt type hrt]
    by_cases hf : rt.ResetSystem = 0
    · simp [hf]
    · by_cases hs : fw.gPEEFISystemTable = 0
      · simp [hf, hs]
      · simp [hf, hs]

/-- Witness of C9: reset type 2 with the `ResetSystem` slot 12288 and both
firmware globals set: one call, with `rcx = 2` and `rdx = 0`. -/
theorem resetSystem_single_call_witness :
    (resetSystem (fun _ r _ _ => { r with rax := 14 })
        { gPEEFIRuntimeServices := some { GetVariable := 4096, SetVariable := 8192,
                                          ResetSystem := 12288 },
          gPEEFISystemTable := 1 } 2).map (fun o => (o.ret, o.calls)) =
      some ((), [{ func := 12288,
                   efi_reg := { rcx := 2, rdx := 0, r8 := 0, r9 := 0, rax := 0 },
                   stack_contents := List.replicate 48 0,
                   stack_contents_size := 48 }]) :=
  (resetSystem_single_call (fun _ r _ _ => { r with rax := 14 })
      { gPEEFIRuntimeServices := some { GetVariable := 4096, SetVariable := 8192,
                                        ResetSystem := 12288 },
        gPEEFISystemTable := 1 }
      { GetVariable := 4096, SetVariable := 8192, ResetSystem := 12288 }
      2 rfl).2.2.1 (by decide) (by decide)

/-- C10: whenever the dispatcher refuses the call built by `getVariable` or by
`setVariable`, the value returned to the caller is `EFI_SUCCESS = 0`. The
refusal is never `KERN_INVALID_ARGUMENT`: it is `KERN_INVALID_ADDRESS` exactly
when the function slot is zero and `KERN_NOT_SUPPORTED` exactly when the slot is
non-zero and the system-table pointer is unset. A call that reaches firmware
and leaves `EFI_SUCCESS` in `rax` returns the same value. -/
theorem variable_refusal_returns_EFI_SUCCESS (asm : Trampoline) (fw : Firmware)
    (rt : EFI_RUNTIME_SERVICES_64) (name guid attr size data : Nat)
    (hrt : fw.gPEEFIRuntimeServices = some rt) :
    EFI_SUCCESS = 0 ∧
    ((performEfiCall asm fw rt.GetVariable
          (some { rcx := name, rdx := guid, r8 := attr, r9 := size, rax := 0 })
          (some (uint64Array [0, 0, 0, 0, data, 0])) 48 EFI_SUCCESS).code ≠
        KERN_INVALID_ARGUMENT ∧
      ((performEfiCall asm fw rt.GetVariable
          (some { rcx := name, rdx := guid, r8 := attr, r9 := size, rax := 0 })
          (some (uint64Array [0, 0, 0, 0, data, 0])) 48 EFI_SUCCESS).code =
        KERN_INVALID_ADDRESS ↔ rt.GetVariable = 0) ∧
      ((performEfiCall asm fw rt.GetVariable
          (some { rcx := name, rdx := guid, r8 := attr, r9 := size, rax := 0 })
          (some (uint64Array [0, 0, 0, 0, data, 0])) 48 EFI_SUCCESS).code =
        KERN_NOT_SUPPORTED ↔ (rt.GetVariable ≠ 0 ∧ fw.gPEEFISystemTable = 0)) ∧
      ((performEfiCall asm fw rt.GetVariable
          (some { rcx := name, rdx := guid, r8 := attr, r9 := size, rax := 0 })
          (some (uint64Array [0, 0, 0, 0, data, 0])) 48 EFI_SUCCESS).code ≠ KERN_SUCCESS →
        getVariable asm fw name guid attr size data =
          some { ret := EFI_SUCCESS, calls := [],
                 log := [LogLine.DBGLOG_code "efi call GetVariable failure %d"
                   (performEfiCall asm fw rt.GetVariable
                     (some { rcx := name, rdx := guid, r8 := attr, r9 := size, rax := 0 })
                     (some (uint64Array [0, 0, 0, 0, data, 0])) 48 EFI_SUCCESS).code] }) ∧
      (rt.GetVariable ≠ 0 → fw.gPEEFISystemTable ≠ 0 →
        (asm rt.GetVariable { rcx := name, rdx := guid, r8 := attr, r9 := size, rax := 0 }
          (uint64Array [0, 0, 0, 0, data, 0]) 48).rax = EFI_SUCCESS →
        (getVariable asm fw name guid attr size data).map (fun o => o.ret) =
          some EFI_SUCCESS)) ∧
    ((performEfiCall asm fw rt.SetVariable
          (some { rcx := name, rdx := guid, r8 := attr, r9 := size, rax := 0 })
          (some (uint64Array [0, 0, 0, 0, data, 0])) 48 EFI_SUCCESS).code ≠
        KERN_INVALID_ARGUMENT ∧
      ((performEfiCall asm fw rt.SetVariable
          (some { rcx := name, rdx := guid, r8 := attr, r9 := size, rax := 0 })
          (some (uint64Array [0, 0, 0, 0, data, 0])) 48 EFI_SUCCESS).code =
        KERN_INVALID_ADDRESS ↔ rt.SetVariable = 0) ∧
      ((performEfiCall asm fw rt.SetVariable
          (some { rcx := name, rdx := guid, r8 := attr, r9 := size, rax := 0 })
          (some (uint64Array [0, 0, 0, 0, data, 0])) 48 EFI_SUCCESS).code =
        KERN_NOT_SUPPORTED ↔ (rt.SetVariable ≠ 0 ∧ fw.gPEEFISystemTable = 0)) ∧
      ((performEfiCall asm fw rt.SetVariable
          (some { rcx := name, rdx := guid, r8 := attr, r9 := size, rax := 0 })
          (some (uint64Array [0, 0, 0, 0, data, 0])) 48 EFI_SUCCESS).code ≠ KERN_SUCCESS →
        setVariable asm fw name guid attr size data =
          some { ret := EFI_SUCCESS, calls := [],
                 log := [LogLine.DBGLOG_code "efi call SetVariable failure %d"
                   (performEfiCall asm fw rt.SetVariable
                     (some { rcx := name, rdx := guid, r8 := attr, r9 := size, rax := 0 })
                     (some (uint64Array [0, 0, 0, 0, data, 0])) 48 EFI_SUCCESS).code] }) ∧
      (rt.SetVariable ≠ 0 → fw.gPEEFISystemTable ≠ 0 →
        (asm rt.SetVariable { rcx := name, rdx := guid, r8 := attr, r9 := size, rax := 0 }
          (uint64Array [0, 0, 0, 0, data, 0]) 48).rax = EFI_SUCCESS →
        (setVariable asm fw name guid attr size data).map (fun o => o.ret) =
          some EFI_SUCCESS)) := by
  refine ⟨rfl, ?_, ?_⟩
  · rw [performEfiCall_48_code asm fw rt _ _ _ hrt,
      getVariable_unfold asm fw rt name guid attr size data hrt]
    by_cases hf : rt.GetVariable = 0
    · simp [hf, EFI_SUCCESS]
    · by_cases hs : fw.gPEEFISystemTable = 0
      · simp [hf, hs, EFI_SUCCESS]
      · simp [hf, hs, EFI_SUCCESS]
  · rw [performEfiCall_48_code asm fw rt _ _ _ hrt,
      setVariable_unfold asm fw rt name guid attr size data hrt]
    by_cases hf : rt.SetVariable = 0
    · simp [hf, EFI_SUCCESS]
    · by_cases hs : fw.gPEEFISystemTable = 0
      · simp [hf, hs, EFI_SUCCESS]
      · simp [hf, hs, EFI_SUCCESS]

/-- Witness of C10: the `GetVariable` slot is zero and the system table is
unset while `SetVariable` is non-zero; `getVariable` is refused with
`KERN_INVALID_ADDRESS`, `setVariable` with `KERN_NOT_SUPPORTED`, and both
return 0 without calling the trampoline. -/
theorem variable_refusal_returns_EFI_SUCCESS_witness :
    getVariable (fun _ r _ _ => { r with rax := 14 })
        { gPEEFIRuntimeServices := some { GetVariable := 0, SetVariable := 8192,
                                          ResetSystem := 12288 },
          gPEEFISystemTable := 0 } 100 200 300 400 500 =
      some { ret := 0, calls := [],
             log := [LogLine.DBGLOG_code "efi call GetVariable failure %d"
                      KERN_INVALID_ADDRESS] } ∧
    setVariable (fun _ r _ _ => { r with rax := 14 })
        { gPEEFIRuntimeServices := some { GetVariable := 0, SetVariable := 8192,
                                          ResetSystem := 12288 },
          gPEEFISystemTable := 0 } 100 200 300 400 500 =
      some { ret := 0, calls := [],
             log := [LogLine.DBGLOG_code "efi call SetVariable failure %d"
                      KERN_NOT_SUPPORTED] } :=
  ⟨(variable_refusal_returns_EFI_SUCCESS (fun _ r _ _ => { r with rax := 14 })
      { gPEEFIRuntimeServices := some { GetVariable := 0, SetVariable := 8192,
                                        ResetSystem := 12288 },
        gPEEFISystemTable := 0 }
      { GetVariable := 0, SetVariable := 8192, ResetSystem := 12288 }
      100 200 300 400 500 rfl).2.1.2.2.2.1 (by decide),
   (variable_refusal_returns_EFI_SUCCESS (fun _ r _ _ => { r with rax := 14 })
      { gPEEFIRuntimeServices := some { GetVariable := 0, SetVariable := 8192,
                                        ResetSystem := 12288 },
        gPEEFISystemTable := 0 }
      { GetVariable := 0, SetVariable := 8192, ResetSystem := 12288 }
      100 200 300 400 500 rfl).2.2.2.2.2.1 (by decide)⟩

/-! ## Lemmas: activation -/

/-- A run of `activate()` whose probe matches and whose lock allocation
succeeds installs the new instance, whatever the pointer was. -/
theorem activate_installs {σ : Type} (s : State σ) (entry : IORegistryEntry) (lockAlloc : Nat)
    (hprop : entry.getProperty "firmware-abi" = some (OSObject.OSData EFI64))
    (hlock : lockAlloc ≠ 0) :
    (activate (some entry) lockAlloc s).instancePtr = some { accessLock := lockAlloc } := by
  simp [activate, hprop, OSDynamicCast_OSData, OSData_isEqualTo, EFI64, hlock]

/-- Any other run of `activate()` leaves the pointer as it was. -/
theorem activate_keeps {σ : Type} (s : State σ) (efi : Option IORegistryEntry)
    (lockAlloc : Nat)
    (h : ¬ ((∃ entry, efi = some entry ∧
              entry.getProperty "firmware-abi" = some (OSObject.OSData EFI64)) ∧
            lockAlloc ≠ 0)) :
    (activate efi lockAlloc s).instancePtr = s.instancePtr := by
  cases efi with
  | none => simp [activate]
  | some entry =>
    cases hg : entry.getProperty "firmware-abi" with
    | none => simp [activate, hg, OSDynamicCast_OSData]
    | some obj =>
      cases obj with
      | OSData bytes =>
        by_cases hb : bytes = [69, 70, 73, 54, 52, 0]
        · have hlock : lockAlloc = 0 := by
            by_contra hl
            exact h ⟨⟨entry, rfl, by rw [hg, hb]; rfl⟩, hl⟩
          simp [activate, hg, OSDynamicCast_OSData, OSData_isEqualTo, EFI64, hb, hlock]
        · simp [activate, hg, OSDynamicCast_OSData, OSData_isEqualTo, EFI64, hb]
      | OSString chars => simp [activate, hg, OSDynamicCast_OSData]
      | OSNumber value => simp [activate, hg, OSDynamicCast_OSData]

theorem step_instancePtr {σ : Type} (L : LockOps σ) (s : State σ) (op : Op) :
    (step L s op).instancePtr = s.instancePtr ∨
    ∃ entry lockAlloc, op = Op.activate (some entry) lockAlloc ∧
      entry.getProperty "firmware-abi" = some (OSObject.OSData EFI64) ∧ lockAlloc ≠ 0 ∧
      (step L s op).instancePtr = some { accessLock := lockAlloc } := by
  cases op with
  | activate efi lockAlloc =>
    by_cases h : (∃ entry, efi = some entry ∧
        entry.getProperty "firmware-abi" = some (OSObject.OSData EFI64)) ∧ lockAlloc ≠ 0
    · obtain ⟨⟨entry, he, hprop⟩, hlock⟩ := h
      subst he
      exact Or.inr ⟨entry, lockAlloc, rfl, hprop, hlock, activate_installs s entry lockAlloc
        hprop hlock⟩
    · exact Or.inl (activate_keeps s efi lockAlloc h)
  | get lock =>
    left
    show (get L lock s).2.instancePtr = s.instancePtr
    unfold get
    split <;> rfl
  | put =>
    left
    show (put L s).instancePtr = s.instancePtr
    unfold put
    split <;> rfl

theorem run_instancePtr_ne_none {σ : Type} (L : LockOps σ) (ops : List Op) :
    ∀ s : State σ, s.instancePtr ≠ none → (run L s ops).instancePtr ≠ none := by
  induction ops with
  | nil => intro s hs; exact hs
  | cons op rest ih =>
    intro s hs
    have hstep : (step L s op).instancePtr ≠ none := by
      rcases step_instancePtr L s op with h | ⟨_, _, _, _, _, h⟩
      · rw [h]; exact hs
      · rw [h]; simp
    exact ih (step L s op) hstep

/-- A sequence followed by one more call: the last call steps from the state
the sequence reaches. -/
theorem run_append_single {σ : Type} (L : LockOps σ) (s : State σ) (ops : List Op)
    (op : Op) : run L s (ops ++ [op]) = step L (run L s ops) op := by
  simp [run, List.foldl_append]

/-! ## Theorems: activation -/

/-- C5: from a state with no published instance, one run of `activate()`
publishes an instance if and only if the `/efi` entry is present, its
`firmware-abi` property is a byte-string equal to the six bytes of `"EFI64"`
with its terminator, and the lock allocation returns a non-null lock. A
published instance holds that lock, so it never lacks one; in every other case
the pointer stays null. -/
theorem activate_publishes_iff {σ : Type} (s : State σ) (efi : Option IORegistryEntry)
    (lockAlloc : Nat) (hs : s.instancePtr = none) :
    ((activate efi lockAlloc s).instancePtr ≠ none ↔
      ((∃ entry, efi = some entry ∧
          entry.getProperty "firmware-abi" =
            some (OSObject.OSData ("EFI64".toList.map Char.toNat ++ [0]))) ∧
        lockAlloc ≠ 0)) ∧
    (∀ inst, (activate efi lockAlloc s).instancePtr = some inst →
      inst.accessLock = lockAlloc ∧ inst.accessLock ≠ 0) ∧
    ((activate efi lockAlloc s).instancePtr = none ∨
      (activate efi lockAlloc s).instancePtr = some { accessLock := lockAlloc }) := by
  have hlit : "EFI64".toList.map Char.toNat ++ [0] = EFI64 := by decide
  rw [hlit]
  by_cases h : (∃ entry, efi = some entry ∧
      entry.getProperty "firmware-abi" = some (OSObject.OSData EFI64)) ∧ lockAlloc ≠ 0
  · obtain ⟨⟨entry, he, hprop⟩, hlock⟩ := h
    subst he
    have hi := activate_installs s entry lockAlloc hprop hlock
    refine ⟨⟨fun _ => ⟨⟨entry, rfl, hprop⟩, hlock⟩, fun _ => by rw [hi]; simp⟩, ?_,
      Or.inr hi⟩
    intro inst hinst
    rw [hi] at hinst
    cases hinst
    exact ⟨rfl, hlock⟩
  · have hk := activate_keeps s efi lockAlloc h
    rw [hs] at hk
    refine ⟨⟨fun hne => absurd hk hne, fun hc => absurd hc h⟩, ?_, Or.inl hk⟩
    intro inst hinst
    rw [hk] at hinst
    cases hinst

/-- Witness of C5: with the property `"EFI64"` and the lock 4096 the instance
holding lock 4096 is published; with a longer value that only starts with
`"EFI64"`, with a value lacking the terminator, with lower-case letters, with a
string instead of a byte-string, with no entry, or with a failed lock
allocation, nothing is published. -/
theorem activate_publishes_iff_witness :
    (activate (some { properties := [("firmware-abi", OSObject.OSData EFI64)] }) 4096
        ({ instancePtr := none, locks := (), log := [] } : State Unit)).instancePtr ≠ none ∧
    (activate (some { properties := [("firmware-abi", OSObject.OSData EFI64)] }) 4096
        ({ instancePtr := none, locks := (), log := [] } : State Unit)).instancePtr =
      some { accessLock := 4096 } ∧
    (activate (some { properties := [("firmware-abi", OSObject.OSData (EFI64 ++ [0]))] }) 4096
        ({ instancePtr := none, locks := (), log := [] } : State Unit)).instancePtr = none ∧
    (activate (some { properties := [("firmware-abi",
          OSObject.OSData [69, 70, 73, 54, 52])] }) 4096
        ({ instancePtr := none, locks := (), log := [] } : State Unit)).instancePtr = none ∧
    (activate (some { properties := [("firmware-abi",
          OSObject.OSData [101, 102, 105, 54, 52, 0])] }) 4096
        ({ instancePtr := none, locks := (), log := [] } : State Unit)).instancePtr = none ∧
    (activate (some { properties := [("firmware-abi", OSObject.OSString "EFI64")] }) 4096
        ({ instancePtr := none, locks := (), log := [] } : State Unit)).instancePtr = none ∧
    (activate none 4096
        ({ instancePtr := none, locks := (), log := [] } : State Unit)).instancePtr = none ∧
    (activate (some { properties := [("firmware-abi", OSObject.OSData EFI64)] }) 0
        ({ instancePtr := none, locks := (), log := [] } : State Unit)).instancePtr = none :=
  ⟨(activate_publishes_iff
      ({ instancePtr := none, locks := (), log := [] } : State Unit)
      (some { properties := [("firmware-abi", OSObject.OSData EFI64)] }) 4096 rfl).1.mpr
      ⟨⟨_, rfl, by decide⟩, by decide⟩,
   by decide, by decide, by decide, by decide, by decide, by decide, by decide⟩

/-- Counterexample to C6 as stated: after a first `activate()` has published
the instance holding lock 4096, a `get`, a `put` and a second `activate()`
whose probe matches and whose lock allocation returns 8192 leave the pointer on
a different instance. -/
theorem activate_twice_replaces_instance :
    (run ({ IOLockLock := fun l held => l :: held,
            IOLockUnlock := fun l held => held.erase l } : LockOps (List Nat))
        { instancePtr := none, locks := [], log := [] }
        [Op.activate (some { properties := [("firmware-abi", OSObject.OSData EFI64)] })
          4096]).instancePtr = some { accessLock := 4096 } ∧
    (run ({ IOLockLock := fun l held => l :: held,
            IOLockUnlock := fun l held => held.erase l } : LockOps (List Nat))
        { instancePtr := none, locks := [], log := [] }
        [Op.activate (some { properties := [("firmware-abi", OSObject.OSData EFI64)] }) 4096,
         Op.get true, Op.put,
         Op.activate (some { properties := [("firmware-abi", OSObject.OSData EFI64)] })
          8192]).instancePtr = some { accessLock := 8192 } ∧
    (some { accessLock := 8192 } : Option EfiRuntimeServices) ≠ some { accessLock := 4096 } := by
  refine ⟨by decide, by decide, by decide⟩

/-- C6, amended: once an instance is published, no sequence of `activate()`,
`get()` and `put()` calls resets the pointer to null. After any such sequence,
a further `activate()` whose probe matches and whose lock allocation succeeds
sets the pointer to the instance it has just built, holding the new lock; a
further `activate()` of any other kind, a `get()` and a `put()` leave the
pointer as it is, and `get()` returns that pointer. -/
theorem instancePtr_never_reset {σ : Type} (L : LockOps σ) (s : State σ) (ops : List Op)
    (hs : s.instancePtr ≠ none) :
    (run L s ops).instancePtr ≠ none ∧
    (∀ (entry : IORegistryEntry) (lockAlloc : Nat),
      entry.getProperty "firmware-abi" = some (OSObject.OSData EFI64) → lockAlloc ≠ 0 →
      (run L s (ops ++ [Op.activate (some entry) lockAlloc])).instancePtr =
        some { accessLock := lockAlloc }) ∧
    (∀ (efi : Option IORegistryEntry) (lockAlloc : Nat),
      ¬ ((∃ entry, efi = some entry ∧
            entry.getProperty "firmware-abi" = some (OSObject.OSData EFI64)) ∧
          lockAlloc ≠ 0) →
      (run L s (ops ++ [Op.activate efi lockAlloc])).instancePtr =
        (run L s ops).instancePtr) ∧
    (∀ lock : Bool,
      (run L s (ops ++ [Op.get lock])).instancePtr = (run L s ops).instancePtr ∧
      (get L lock (run L s ops)).1 = (run L s ops).instancePtr) ∧
    (run L s (ops ++ [Op.put])).instancePtr = (run L s ops).instancePtr := by
  refine ⟨run_instancePtr_ne_none L ops s hs, ?_, ?_, ?_, ?_⟩
  · intro entry lockAlloc hprop hlock
    rw [run_append_single]
    exact activate_installs (run L s ops) entry lockAlloc hprop hlock
  · intro efi lockAlloc h
    rw [run_append_single]
    exact activate_keeps (run L s ops) efi lockAlloc h
  · intro lock
    rw [run_append_single]
    constructor
    · show (get L lock (run L s ops)).2.instancePtr = (run L s ops).instancePtr
      unfold get
      split <;> rfl
    · unfold get
      split <;> rfl
  · rw [run_append_single]
    show (put L (run L s ops)).instancePtr = (run L s ops).instancePtr
    unfold put
    split <;> rfl

/-- Witness of C6, amended: from the published instance holding lock 4096, a
`get`, a `put` and an `activate()` that finds no `/efi` entry leave a non-null
pointer, and a further `activate()` whose probe matches and whose lock
allocation returns 8192 sets the pointer to the instance holding lock 8192. -/
theorem instancePtr_never_reset_witness :
    (run ({ IOLockLock := fun l held => l :: held,
            IOLockUnlock := fun l held => held.erase l } : LockOps (List Nat))
        { instancePtr := some { accessLock := 4096 }, locks := [], log := [] }
        [Op.get true, Op.put, Op.activate none 8192]).instancePtr ≠ none ∧
    (run ({ IOLockLock := fun l held => l :: held,
            IOLockUnlock := fun l held => held.erase l } : LockOps (List Nat))
        { instancePtr := some { accessLock := 4096 }, locks := [], log := [] }
        ([Op.get true, Op.put, Op.activate none 8192] ++
          [Op.activate (some { properties := [("firmware-abi", OSObject.OSData EFI64)] })
            8192])).instancePtr = some { accessLock := 8192 } :=
  ⟨(instancePtr_never_reset
      ({ IOLockLock := fun l held => l :: held,
         IOLockUnlock := fun l held => held.erase l } : LockOps (List Nat))
      { instancePtr := some { accessLock := 4096 }, locks := [], log := [] }
      [Op.get true, Op.put, Op.activate none 8192] (by decide)).1,
   (instancePtr_never_reset
      ({ IOLockLock := fun l held => l :: held,
         IOLockUnlock := fun l held => held.erase l } : LockOps (List Nat))
      { instancePtr := some { accessLock := 4096 }, locks := [], log := [] }
      [Op.get true, Op.put, Op.activate none 8192] (by decide)).2.1
      { properties := [("firmware-abi", OSObject.OSData EFI64)] } 8192
      (by decide) (by decide)⟩

end Lilu
